import Mathlib

/-!
Verification of the polymarket arbitrage monitor (src/polymarket_monitor.py)
against its natural-language specification. Prices are embedded as exact
rationals; the 4-decimal presentation rounding of the Python format string
is modelled by half-even rounding at the fourth decimal, which is the
rounding Python applies both in round(x, 4) and in fixed-point formatting.
Side effects are embedded as explicit state passing plus an event trace,
and a raised Python exception is an explicit error value threaded through
the call structure exactly where the source lets it propagate.
-/

section PolymarketMonitor

attribute [local semireducible] Rat.add Rat.sub Rat.mul

/-- One row of the tabular store: a list of string fields. -/
abbrev Row := List String

/-- Half-even (bankers) rounding of a rational to an integer, the rounding
used by Python both for round() and for fixed-point formatting. -/
def roundHalfEven (x : ℚ) : ℤ :=
  let f := x.floor
  let r := x - f
  if r < mkRat 1 2 then f
  else if mkRat 1 2 < r then f + 1
  else if f % 2 = 0 then f else f + 1

/-- Rounding to four decimal places, the round(x, 4) of the spec. -/
def round4 (x : ℚ) : ℚ := (roundHalfEven (x * 10000) : ℚ) / 10000

/-- Pad a digit string to four characters with leading zeros. -/
def pad4 (s : String) : String :=
  String.mk (List.replicate (4 - s.length) '0') ++ s

/-- The fixed-4-decimal string produced by the format specifier .4f. -/
def fmt4 (x : ℚ) : String :=
  let z := roundHalfEven (x * 10000)
  let sgn := if z < 0 then "-" else ""
  let m := z.natAbs
  sgn ++ toString (m / 10000) ++ "." ++ pad4 (toString (m % 10000))

/-- A configured market: stable id, display name, fetch endpoint, as in the
config file entries consumed by the monitor. -/
structure Market where
  id : String
  name : String
  api_endpoint : String
deriving DecidableEq

/-- The named threshold set of the thresholds config key. -/
structure Thresholds where
  primary : ℚ
  secondary : ℚ
  tertiary : ℚ
deriving DecidableEq

/-- The CSV data row assembled by record_data: timestamp, ids, the four
fixed-4-decimal numeric strings, and the three threshold booleans, each
compared on the raw unrounded sum exactly as the source does. -/
def makeRow (thr : Thresholds) (m : Market) (ts : String) (y n : ℚ) : Row :=
  let price_sum := y + n
  let gap := 1 - price_sum
  [ts, m.id, m.name, fmt4 y, fmt4 n, fmt4 price_sum, fmt4 gap,
   if price_sum < thr.primary then "YES" else "NO",
   if price_sum < thr.secondary then "YES" else "NO",
   if price_sum < thr.tertiary then "YES" else "NO"]

/-- A Python exception escaping a statement: either an Exception subclass
carrying a message, or KeyboardInterrupt from Ctrl-C. -/
inductive PyExc where
  | exception (msg : String)
  | keyboardInterrupt
deriving DecidableEq

/-- Observable effects of the monitor other than the CSV state, in order. -/
inductive Event where
  | csvAppend (r : Row)
  | mirrorAppend (r : Row)
  | printLine (s : String)
  | alert (marketName : String)
  | failLog (marketName reason : String)
  | sleep (seconds : ℕ)
deriving DecidableEq

/-- Behaviour of one append_row call on the Google Sheets mirror: it either
accepts the row or raises an Exception with a message. -/
abbrev MirrorBehavior := Row → Except String Unit

/-- The events of the guarded gsheet append in record_data: skipped when the
mirror is disabled, a mirror append on success, and the caught-and-printed
error message on failure, exactly mirroring the try block of the source. -/
def mirrorEvents (gsheet : Option MirrorBehavior) (r : Row) : List Event :=
  match gsheet with
  | none => []
  | some mb =>
    match mb r with
    | Except.ok _ => [Event.mirrorAppend r]
    | Except.error e => [Event.printLine ("Error writing to Google Sheets: " ++ e)]

/-- record_data: build the row, append it to the CSV store, mirror it to the
sheet inside a try block, and print the alert when the raw sum is below the
primary threshold. The csvOk flag tells whether the unguarded CSV open and
write succeeds; when it does not, the exception escapes record_data with
nothing appended and no further statement executed. The timestamp is an
opaque input standing for datetime.utcnow rendered to seconds. -/
def record_data (thr : Thresholds) (m : Market) (ts : String) (y n : ℚ)
    (csv : List Row) (gsheet : Option MirrorBehavior) (csvOk : Bool) :
    List Row × List Event × Option PyExc :=
  let row := makeRow thr m ts y n
  if csvOk then
    (csv ++ [row],
     Event.csvAppend row :: mirrorEvents gsheet row
       ++ (if y + n < thr.primary then [Event.alert m.name] else []),
     none)
  else (csv, [], some (PyExc.exception "csv write failed"))

/-- Outcome of one fetch_market_prices call as seen by the monitor loop:
either the returned pair of optional prices, or a KeyboardInterrupt
delivered during the iteration. -/
inductive FetchStep where
  | ret (y n : Option ℚ)
  | interrupt
deriving DecidableEq

/-- The per-market success status line printed by the monitor loop. -/
def successLine (m : Market) (y n : ℚ) : String :=
  "  v " ++ m.name ++ ": YES=" ++ fmt4 y ++ " NO=" ++ fmt4 n
    ++ " Sum=" ++ fmt4 (y + n) ++ " Gap=" ++ fmt4 (1 - (y + n))

/-- One market inside a tick: on a pair with both prices present, run
record_data and print the success line; on a pair with a missing price,
print the per-market failure line and touch nothing; an interrupt
propagates. Any exception escaping record_data propagates unchanged. -/
def processMarket (thr : Thresholds) (ts : String)
    (gsheet : Option MirrorBehavior) (csvOk : Bool)
    (m : Market) (st : FetchStep) (csv : List Row) :
    List Row × List Event × Option PyExc :=
  match st with
  | FetchStep.interrupt => (csv, [], some PyExc.keyboardInterrupt)
  | FetchStep.ret (some y) (some n) =>
    let r := record_data thr m ts y n csv gsheet csvOk
    match r.2.2 with
    | some e => (r.1, r.2.1, some e)
    | none => (r.1, r.2.1 ++ [Event.printLine (successLine m y n)], none)
  | FetchStep.ret _ _ =>
    (csv, [Event.failLog m.name "Failed to fetch prices"], none)

/-- The for loop over the configured markets of one tick. An exception from
one market aborts the remainder of the loop, as an uncaught Python
exception does. -/
def runMarkets (thr : Thresholds) (ts : String)
    (gsheet : Option MirrorBehavior) (csvOk : Bool) :
    List (Market × FetchStep) → List Row → List Row × List Event × Option PyExc
  | [], csv => (csv, [], none)
  | (m, st) :: rest, csv =>
    let r := processMarket thr ts gsheet csvOk m st csv
    match r.2.2 with
    | some e => (r.1, r.2.1, some e)
    | none =>
      let r2 := runMarkets thr ts gsheet csvOk rest r.1
      (r2.1, r.2.1 ++ r2.2.1, r2.2.2)

/-- The iteration banner printed at the top of each tick. -/
def iterHeader (i : ℕ) (ts : String) : String :=
  "[Iteration " ++ toString i ++ "] " ++ ts ++ " UTC"

/-- The while True loop of monitor_markets, driven by a finite schedule of
ticks (fetch outcomes per market); exhausting the schedule stands for the
loop still running. Each tick prints its header, iterates the markets, and
sleeps for the configured interval; any exception escapes the loop. -/
def monitorLoop (thr : Thresholds) (ts : String)
    (gsheet : Option MirrorBehavior) (csvOk : Bool) (interval : ℕ) :
    List (List (Market × FetchStep)) → List Row → ℕ →
    List Row × List Event × Option PyExc
  | [], csv, _ => (csv, [], none)
  | tick :: rest, csv, iter =>
    let r := runMarkets thr ts gsheet csvOk tick csv
    match r.2.2 with
    | some e => (r.1, Event.printLine (iterHeader iter ts) :: r.2.1, some e)
    | none =>
      let r2 := monitorLoop thr ts gsheet csvOk interval rest r.1 (iter + 1)
      (r2.1,
       Event.printLine (iterHeader iter ts) :: r.2.1
         ++ Event.sleep interval :: r2.2.1,
       r2.2.2)

/-- monitor_markets: the startup banner, the loop, and the try block whose
only handler catches KeyboardInterrupt and prints the shutdown summary.
Every other exception leaves monitor_markets, and hence the process, as the
final error component. -/
def monitor_markets (thr : Thresholds) (ts : String)
    (gsheet : Option MirrorBehavior) (csvOk : Bool) (interval : ℕ)
    (schedule : List (List (Market × FetchStep))) (csv : List Row) :
    List Row × List Event × Option PyExc :=
  let r := monitorLoop thr ts gsheet csvOk interval schedule csv 1
  let banner := Event.printLine "Polymarket Arbitrage Monitor Started"
  match r.2.2 with
  | some PyExc.keyboardInterrupt =>
    (r.1, banner :: r.2.1 ++ [Event.printLine "Monitor stopped by user"], none)
  | other => (r.1, banner :: r.2.1, other)

/-- fetch_market_prices: the whole body sits in a try block whose handler
catches any Exception, prints it, and returns the pair (None, None); the
attempt argument is the outcome of the body. The result is an Except value
so that, had an exception been able to escape, it would show up as an
error; it never does. -/
def fetch_market_prices (m : Market) (attempt : Except String (ℚ × ℚ)) :
    Except PyExc ((Option ℚ × Option ℚ) × List Event) :=
  match attempt with
  | Except.ok (y, n) => Except.ok ((some y, some n), [])
  | Except.error e =>
    Except.ok ((none, none),
      [Event.printLine ("Error fetching prices for " ++ m.name ++ ": " ++ e)])

/-- The fixed header row written by setup_csv on first creation. -/
def headerRow : Row :=
  ["Timestamp_UTC", "Market_ID", "Market_Name", "YES_Price", "NO_Price",
   "Sum", "Gap_From_One", "Below_1.00", "Below_0.95", "Below_0.90"]

/-- Operations applied to the CSV destination over its lifetime. -/
inductive CsvOp where
  | setup
  | append (r : Row)
deriving DecidableEq

/-- State transition of the CSV destination: setup_csv writes the header
only when the file does not yet exist, and an open in append mode with
writerow adds one row at the end, creating the file when absent. -/
def applyOp : Option (List Row) → CsvOp → Option (List Row)
  | none, CsvOp.setup => some [headerRow]
  | some rows, CsvOp.setup => some rows
  | none, CsvOp.append r => some [r]
  | some rows, CsvOp.append r => some (rows ++ [r])

/-- Run a list of operations against the destination. -/
def runOps (st : Option (List Row)) (ops : List CsvOp) : Option (List Row) :=
  ops.foldl applyOp st

/-- One process run against the destination: the constructor invokes
setup_csv once, then every record_data call appends one data row. -/
def processRun (dataRows : List Row) : List CsvOp :=
  CsvOp.setup :: dataRows.map CsvOp.append

/-- The destination after a sequence of process runs, restarts included. -/
def runStore (st : Option (List Row)) : List (List Row) → Option (List Row)
  | [] => st
  | run :: rest => runStore (runOps st (processRun run)) rest

/-- A configuration file as a partial record: each key may be absent. -/
structure ConfigFile where
  markets : Option (List Market)
  thresholds : Option Thresholds
  polling_interval_seconds : Option ℕ
  output_csv : Option String
  use_google_sheets : Option Bool
  google_sheets_name : Option String
deriving DecidableEq

/-- The documented default configuration created by load_config. -/
def defaultConfig : ConfigFile :=
  ⟨some [⟨"market_id_1", "Trump wins 2024",
      "https://clob.polymarket.com/markets/market_id_1"⟩],
   some ⟨1, mkRat 95 100, mkRat 90 100⟩,
   some 5,
   some "arbitrage_data.csv",
   some false,
   some "Polymarket Arbitrage Data"⟩

/-- A present configuration file with every field missing. -/
def emptyConfig : ConfigFile := ⟨none, none, none, none, none, none⟩

/-- load_config: on FileNotFoundError the full default configuration is
created, written back, and returned; a file that can be read is returned
exactly as parsed, with no per-field defaulting and no write. The second
component is the configuration persisted back, none when nothing is
written. -/
def load_config : Option ConfigFile → ConfigFile × Option ConfigFile
  | none => (defaultConfig, some defaultConfig)
  | some c => (c, none)

/-- Recogniser for per-market failure log entries. -/
def isFailEvent : Event → Bool
  | Event.failLog _ _ => true
  | _ => false

/-- The default threshold set of the spec scenarios. -/
def thrDefault : Thresholds := ⟨1, mkRat 95 100, mkRat 90 100⟩

/-- Concrete markets used in the scenario theorems. -/
def mkt1 : Market := ⟨"m1", "Market One", "e1"⟩

def mktA : Market := ⟨"id_A", "Alpha", "eA"⟩

def mktB : Market := ⟨"id_B", "Beta", "eB"⟩

def mktC : Market := ⟨"id_C", "Gamma", "eC"⟩

/-- A tick in which the fetch fails for the middle market only. -/
def tickABC : List (Market × FetchStep) :=
  [(mktA, FetchStep.ret (some (mkRat 46 100)) (some (mkRat 50 100))),
   (mktB, FetchStep.ret none none),
   (mktC, FetchStep.ret (some (mkRat 51 100)) (some (mkRat 51 100)))]

/-- The event block of one successfully processed market inside a tick:
the durable append, the mirror outcome, the conditional alert, and the
per-market status line, in source order. -/
def okEvents (thr : Thresholds) (g : Option MirrorBehavior) (m : Market)
    (ts : String) (y n : ℚ) : List Event :=
  Event.csvAppend (makeRow thr m ts y n)
    :: ((mirrorEvents g (makeRow thr m ts y n)
          ++ (if y + n < thr.primary then [Event.alert m.name] else []))
        ++ [Event.printLine (successLine m y n)])

/-- A tick over three markets in which only the middle fetch fails. -/
def tick3 (a b c : Market) (ya na yc nc : ℚ) : List (Market × FetchStep) :=
  [(a, FetchStep.ret (some ya) (some na)),
   (b, FetchStep.ret none none),
   (c, FetchStep.ret (some yc) (some nc))]

/-- Casting an integer to a rational and rounding it back is the identity. -/
theorem roundHalfEven_intCast (z : ℤ) : roundHalfEven (z : ℚ) = z := by
  unfold roundHalfEven
  have hf : ((z : ℚ)).floor = z := by
    show ⌊(z : ℚ)⌋ = z
    exact Int.floor_intCast z
  rw [hf]
  norm_num [Rat.mkRat_eq_div]

/-- Scaling round4 back up recovers the rounded integer exactly. -/
theorem round4_scale (x : ℚ) : round4 x * 10000 = (roundHalfEven (x * 10000) : ℚ) := by
  unfold round4
  field_simp

/-- Formatting a value and formatting its 4-decimal rounding agree: the
written fixed-4-decimal string is exactly the rounding of the raw value. -/
theorem fmt4_round4 (x : ℚ) : fmt4 (round4 x) = fmt4 x := by
  unfold fmt4
  rw [round4_scale, roundHalfEven_intCast]


/-- A successfully fetched market with a healthy CSV sink appends exactly
its row and produces the okEvents block, whatever the mirror does. -/
theorem processMarket_success (thr : Thresholds) (ts : String)
    (g : Option MirrorBehavior) (m : Market) (y n : ℚ) (csv : List Row) :
    processMarket thr ts g true m (FetchStep.ret (some y) (some n)) csv
      = (csv ++ [makeRow thr m ts y n], okEvents thr g m ts y n, none) := rfl

/-- A market whose fetched pair misses a price changes nothing and logs
exactly one per-market failure entry carrying the display name. -/
theorem processMarket_missing (thr : Thresholds) (ts : String)
    (g : Option MirrorBehavior) (csvOk : Bool) (m : Market)
    (y n : Option ℚ) (csv : List Row) (h : y = none ∨ n = none) :
    processMarket thr ts g csvOk m (FetchStep.ret y n) csv
      = (csv, [Event.failLog m.name "Failed to fetch prices"], none) := by
  obtain rfl | rfl := h
  · cases n <;> rfl
  · cases y <;> rfl

/-- Mirror outcomes are never per-market failure entries. -/
theorem countP_mirrorEvents (g : Option MirrorBehavior) (r : Row) :
    (mirrorEvents g r).countP isFailEvent = 0 := by
  cases g with
  | none => rfl
  | some mb =>
    rcases hm : mb r with u | e <;> simp [mirrorEvents, hm, isFailEvent]

/-- The event block of a successful market holds no failure entry. -/
theorem countP_okEvents (thr : Thresholds) (g : Option MirrorBehavior)
    (m : Market) (ts : String) (y n : ℚ) :
    (okEvents thr g m ts y n).countP isFailEvent = 0 := by
  by_cases h : y + n < thr.primary <;>
    simp [okEvents, List.countP_cons, List.countP_append,
      countP_mirrorEvents, h, isFailEvent]

/-- With a healthy CSV sink and no interrupt, a tick never raises, whatever
the mirror sink does on each call. -/
theorem runMarkets_noRaise (thr : Thresholds) (ts : String)
    (g : Option MirrorBehavior) (entries : List (Market × FetchStep))
    (csv : List Row) (h : ∀ p ∈ entries, p.2 ≠ FetchStep.interrupt) :
    (runMarkets thr ts g true entries csv).2.2 = none := by
  induction entries generalizing csv with
  | nil => rfl
  | cons p rest ih =>
    obtain ⟨m, st⟩ := p
    have hst : st ≠ FetchStep.interrupt := h (m, st) (List.mem_cons_self _ _)
    have hrest : ∀ q ∈ rest, q.2 ≠ FetchStep.interrupt :=
      fun q hq => h q (List.mem_cons_of_mem _ hq)
    cases st with
    | interrupt => exact absurd rfl hst
    | ret y n =>
      cases y with
      | some yv =>
        cases n with
        | some nv =>
          simp only [runMarkets, processMarket_success thr ts g m yv nv csv]
          exact ih _ hrest
        | none =>
          simp only [runMarkets,
            processMarket_missing thr ts g true m (some yv) none csv (Or.inr rfl)]
          exact ih _ hrest
      | none =>
        simp only [runMarkets,
          processMarket_missing thr ts g true m none n csv (Or.inl rfl)]
        exact ih _ hrest

/-- Folding the appends of one run over an existing store appends the data
rows in order. -/
theorem runOps_append_all (rows ds : List Row) :
    runOps (some rows) (ds.map CsvOp.append) = some (rows ++ ds) := by
  induction ds generalizing rows with
  | nil => simp [runOps]
  | cons d rest ih =>
    show runOps (applyOp (some rows) (CsvOp.append d)) (rest.map CsvOp.append)
      = some (rows ++ d :: rest)
    rw [show applyOp (some rows) (CsvOp.append d) = some (rows ++ [d]) from rfl,
      ih]
    simp

/-- Once the store exists, any sequence of further runs only appends data
rows, never touching the header or the existing entries. -/
theorem runStore_some (rows : List Row) (runs : List (List Row)) :
    runStore (some rows) runs = some (rows ++ runs.flatten) := by
  induction runs generalizing rows with
  | nil => simp [runStore]
  | cons run rest ih =>
    show runStore (runOps (applyOp (some rows) CsvOp.setup)
        (run.map CsvOp.append)) rest = _
    rw [show applyOp (some rows) CsvOp.setup = some rows from rfl,
      runOps_append_all, ih]
    simp

/-- Two scheduled ticks unfold to: first header, first tick events, a sleep
of the configured interval, second header, second tick events, and a final
sleep when the second tick completes. -/
theorem monitorLoop_two (thr : Thresholds) (ts : String)
    (g : Option MirrorBehavior) (csvOk : Bool) (interval : ℕ)
    (t1 t2 : List (Market × FetchStep)) (csv : List Row) (iter : ℕ)
    (h1 : (runMarkets thr ts g csvOk t1 csv).2.2 = none) :
    monitorLoop thr ts g csvOk interval [t1, t2] csv iter
      = ((runMarkets thr ts g csvOk t2 (runMarkets thr ts g csvOk t1 csv).1).1,
         Event.printLine (iterHeader iter ts)
           :: (runMarkets thr ts g csvOk t1 csv).2.1
           ++ Event.sleep interval
           :: Event.printLine (iterHeader (iter + 1) ts)
           :: (runMarkets thr ts g csvOk t2
                (runMarkets thr ts g csvOk t1 csv).1).2.1
           ++ (match (runMarkets thr ts g csvOk t2
                 (runMarkets thr ts g csvOk t1 csv).1).2.2 with
               | none => [Event.sleep interval]
               | some _ => []),
         (runMarkets thr ts g csvOk t2
           (runMarkets thr ts g csvOk t1 csv).1).2.2) := by
  rcases hr1 : runMarkets thr ts g csvOk t1 csv with ⟨c1, ev1, x1⟩
  rw [hr1] at h1
  subst h1
  rcases hr2 : runMarkets thr ts g csvOk t2 c1 with ⟨c2, ev2, x2⟩
  cases x2 <;> simp [monitorLoop, hr1, hr2]

/-- Claim C1: for every price pair and threshold set, record_data builds a
row whose written YES, NO, Sum and Gap fields are the fixed-4-decimal
renderings of the 4-decimal roundings of y, n, y+n and 1 - (y+n), and
whose boolean for each named threshold level is YES exactly when the raw
unrounded sum is below that level. -/
theorem claim_C1 (thr : Thresholds) (m : Market) (ts : String) (y n : ℚ) :
    makeRow thr m ts y n =
      [ts, m.id, m.name,
       fmt4 (round4 y), fmt4 (round4 n), fmt4 (round4 (y + n)),
       fmt4 (round4 (1 - (y + n))),
       if y + n < thr.primary then "YES" else "NO",
       if y + n < thr.secondary then "YES" else "NO",
       if y + n < thr.tertiary then "YES" else "NO"] := by
  simp [makeRow, fmt4_round4]

/-- Claim C7: with thresholds primary 1.00, secondary 0.95, tertiary 0.90,
the pair (0.46, 0.50) yields sum 0.9600, gap 0.0400, booleans YES NO NO,
and the pair (0.51, 0.51) yields sum 1.0200, gap -0.0200, booleans all NO. -/
theorem claim_C7 :
    makeRow thrDefault mkt1 "2024-01-01 00:00:00" (mkRat 46 100) (mkRat 50 100)
      = ["2024-01-01 00:00:00", "m1", "Market One", "0.4600", "0.5000",
         "0.9600", "0.0400", "YES", "NO", "NO"]
    ∧ makeRow thrDefault mkt1 "2024-01-01 00:00:00" (mkRat 51 100) (mkRat 51 100)
      = ["2024-01-01 00:00:00", "m1", "Market One", "0.5100", "0.5100",
         "1.0200", "-0.0200", "NO", "NO", "NO"] := by
  exact ⟨by decide, by decide⟩

/-- Claim C8: evaluation is deterministic: equal inputs (pair, thresholds,
market, timestamp) produce byte-identical rows. -/
theorem claim_C8 (thr thr2 : Thresholds) (m m2 : Market) (ts ts2 : String)
    (y y2 n n2 : ℚ)
    (h : (thr, m, ts, y, n) = (thr2, m2, ts2, y2, n2)) :
    makeRow thr m ts y n = makeRow thr2 m2 ts2 y2 n2 := by
  cases h
  rfl

/-- Witness for claim C8 at a concrete input. -/
theorem claim_C8_witness :
    makeRow thrDefault mkt1 "t" (mkRat 1 2) (mkRat 1 2)
      = makeRow thrDefault mkt1 "t" (mkRat 1 2) (mkRat 1 2) :=
  claim_C8 thrDefault thrDefault mkt1 mkt1 "t" "t"
    (mkRat 1 2) (mkRat 1 2) (mkRat 1 2) (mkRat 1 2) rfl

/-- Claim C6 counterexample: a configuration file that is present but has
every field missing is returned unchanged by load_config: the missing
thresholds field is not filled with the documented default, which does
exist, and nothing is persisted back. -/
theorem claim_C6_counterexample :
    load_config (some emptyConfig) = (emptyConfig, none)
    ∧ emptyConfig.thresholds = none
    ∧ defaultConfig.thresholds = some thrDefault := by
  exact ⟨rfl, rfl, rfl⟩

/-- Claim C6 amended: only when the configuration file is absent does
load_config create the full documented default configuration and persist
it back; a file that is present is returned exactly as parsed, with no
per-field default filling and no write-back. -/
theorem claim_C6_amended :
    load_config none = (defaultConfig, some defaultConfig)
    ∧ ∀ c : ConfigFile, load_config (some c) = (c, none) :=
  ⟨rfl, fun _ => rfl⟩

/-- Claim C9: fetch_market_prices never lets an exception reach its caller:
every outcome of the body maps to a normal return, and a failing body maps
to the printed error message and the pair (none, none). -/
theorem claim_C9 (m : Market) (attempt : Except String (ℚ × ℚ)) :
    (∃ v, fetch_market_prices m attempt = Except.ok v)
    ∧ ∀ e, attempt = Except.error e →
        fetch_market_prices m attempt
          = Except.ok ((none, none),
              [Event.printLine
                ("Error fetching prices for " ++ m.name ++ ": " ++ e)]) := by
  cases attempt with
  | ok p =>
    obtain ⟨y, n⟩ := p
    exact ⟨⟨_, rfl⟩, fun e h => Except.noConfusion h⟩
  | error e0 =>
    refine ⟨⟨_, rfl⟩, fun e h => ?_⟩
    cases h
    rfl

/-- Witness for claim C9 at a concrete failing fetch. -/
theorem claim_C9_witness :
    fetch_market_prices mkt1 (Except.error "boom")
      = Except.ok ((none, none),
          [Event.printLine
            ("Error fetching prices for " ++ mkt1.name ++ ": " ++ "boom")]) :=
  (claim_C9 mkt1 (Except.error "boom")).2 "boom" rfl

/-- Claim C2 counterexample: with one market whose fetch succeeds and a CSV
append that raises, monitor_markets ends with that exception uncaught: the
process terminates for a durable-write failure, although the claim allows
only configuration errors and explicit cancellation to terminate it. -/
theorem claim_C2_counterexample :
    (monitor_markets thrDefault "t" none false 5
        [[(mkt1, FetchStep.ret (some (mkRat 46 100)) (some (mkRat 50 100)))]]
        []).2.2
      = some (PyExc.exception "csv write failed") := by
  rfl

/-- Claim C2 amended: a failed durable append is surfaced, but as a fatal
exception that aborts the tick and the whole loop: whenever the first
market of a tick fetches successfully and the CSV append raises, the
monitor ends with that exception, while a KeyboardInterrupt in the same
position is caught and the monitor ends cleanly. -/
theorem claim_C2_amended (thr : Thresholds) (ts : String)
    (gsheet : Option MirrorBehavior) (interval : ℕ) (m : Market) (y n : ℚ)
    (restM : List (Market × FetchStep))
    (restT : List (List (Market × FetchStep))) (csv : List Row) :
    (monitor_markets thr ts gsheet false interval
        (((m, FetchStep.ret (some y) (some n)) :: restM) :: restT) csv).2.2
      = some (PyExc.exception "csv write failed")
    ∧ (monitor_markets thr ts gsheet false interval
        (((m, FetchStep.interrupt) :: restM) :: restT) csv).2.2 = none := by
  exact ⟨rfl, rfl⟩

/-- Claim C3: for every record the durable CSV append comes first and the
mirror append second; whatever the mirror does on any call, the durable
append still lands, record_data raises nothing, and a tick with a healthy
CSV sink and no interrupt never raises either. -/
theorem claim_C3 (thr : Thresholds) (m : Market) (ts : String) (y n : ℚ)
    (csv : List Row) (mb : MirrorBehavior) :
    (record_data thr m ts y n csv (some mb) true).1
      = csv ++ [makeRow thr m ts y n]
    ∧ (record_data thr m ts y n csv (some mb) true).2.2 = none
    ∧ (record_data thr m ts y n csv (some mb) true).2.1.head?
        = some (Event.csvAppend (makeRow thr m ts y n))
    ∧ ∀ (g : Option MirrorBehavior) (entries : List (Market × FetchStep))
        (csv2 : List Row),
        (∀ p ∈ entries, p.2 ≠ FetchStep.interrupt) →
        (runMarkets thr ts g true entries csv2).2.2 = none := by
  exact ⟨rfl, rfl, rfl, fun g entries csv2 h => runMarkets_noRaise thr ts g entries csv2 h⟩

/-- Witness for claim C3: a mirror that fails on every call still leaves
the durable append in place and the tick raising nothing. -/
theorem claim_C3_witness :
    (record_data thrDefault mkt1 "t" (mkRat 1 2) (mkRat 1 2) []
        (some (fun _ => Except.error "mirror down")) true).1
      = [] ++ [makeRow thrDefault mkt1 "t" (mkRat 1 2) (mkRat 1 2)]
    ∧ (runMarkets thrDefault "t" (some (fun _ => Except.error "mirror down"))
        true tickABC []).2.2 = none := by
  refine ⟨(claim_C3 thrDefault mkt1 "t" (mkRat 1 2) (mkRat 1 2) []
      (fun _ => Except.error "mirror down")).1, ?_⟩
  exact (claim_C3 thrDefault mkt1 "t" (mkRat 1 2) (mkRat 1 2) []
      (fun _ => Except.error "mirror down")).2.2.2
    (some (fun _ => Except.error "mirror down")) tickABC [] (by decide)

/-- Claim C4: over any nonempty sequence of process runs against an
initially absent destination, the store ends as the header followed by all
data rows in order, carries exactly one header row, and every single
operation only appends, never truncating or reordering what exists. -/
theorem claim_C4 (runs : List (List Row)) (hne : runs ≠ [])
    (hdata : ∀ r ∈ runs.flatten, r ≠ headerRow) :
    runStore none runs = some (headerRow :: runs.flatten)
    ∧ (headerRow :: runs.flatten).count headerRow = 1
    ∧ ∀ (rows : List Row) (op : CsvOp),
        ∃ t, applyOp (some rows) op = some (rows ++ t) := by
  refine ⟨?_, ?_, ?_⟩
  · obtain ⟨run0, rest, rfl⟩ := List.exists_cons_of_ne_nil hne
    show runStore (runOps (applyOp none CsvOp.setup) (run0.map CsvOp.append))
        rest = _
    rw [show applyOp none CsvOp.setup = some [headerRow] from rfl,
      runOps_append_all, runStore_some]
    simp
  · rw [List.count_cons_self, List.count_eq_zero.mpr]
    · exact fun h => hdata _ h rfl
  · intro rows op
    cases op with
    | setup => exact ⟨[], by simp [applyOp]⟩
    | append r => exact ⟨[r], rfl⟩

/-- Witness for claim C4: two process runs, the first appending one data
row, leave the store with one header followed by that row. -/
theorem claim_C4_witness :
    runStore none [[["x"]], []]
      = some (headerRow :: ([[["x"]], []] : List (List Row)).flatten)
    ∧ (headerRow :: ([[["x"]], []] : List (List Row)).flatten).count headerRow
        = 1
    ∧ ∀ (rows : List Row) (op : CsvOp),
        ∃ t, applyOp (some rows) op = some (rows ++ t) :=
  claim_C4 [[["x"]], []] (by decide) (by decide)

/-- Claim C5 counterexample: in a tick where only the middle market fails
to fetch, the unique failure entry records the market display name Beta,
not the market id id_B, so the entry does not record the market id. -/
theorem claim_C5_counterexample :
    ((runMarkets thrDefault "t" none true tickABC []).2.1.filter isFailEvent)
      = [Event.failLog "Beta" "Failed to fetch prices"]
    ∧ mktB.id = "id_B" ∧ mktB.name = "Beta" ∧ "Beta" ≠ "id_B" := by
  exact ⟨by decide, rfl, rfl, by decide⟩

/-- Claim C5 amended: when the fetch fails for the middle market of three
and succeeds for the others, the two successes still append their records
in order, the failing market produces exactly one failure log entry
recording the market display name and reason, the tick completes without
raising, and after the configured sleep interval the next scheduled tick
begins. -/
theorem claim_C5_amended (thr : Thresholds) (ts : String) (a b c : Market)
    (ya na yc nc : ℚ) (csv : List Row) (interval : ℕ)
    (tick2 : List (Market × FetchStep)) :
    (runMarkets thr ts none true (tick3 a b c ya na yc nc) csv).1
      = csv ++ [makeRow thr a ts ya na, makeRow thr c ts yc nc]
    ∧ (runMarkets thr ts none true (tick3 a b c ya na yc nc) csv).2.2 = none
    ∧ (runMarkets thr ts none true (tick3 a b c ya na yc nc) csv).2.1.countP
        isFailEvent = 1
    ∧ Event.failLog b.name "Failed to fetch prices"
        ∈ (runMarkets thr ts none true (tick3 a b c ya na yc nc) csv).2.1
    ∧ monitorLoop thr ts none true interval
        [tick3 a b c ya na yc nc, tick2] csv 1
      = ((runMarkets thr ts none true tick2
            (runMarkets thr ts none true (tick3 a b c ya na yc nc) csv).1).1,
         Event.printLine (iterHeader 1 ts)
           :: (runMarkets thr ts none true (tick3 a b c ya na yc nc) csv).2.1
           ++ Event.sleep interval
           :: Event.printLine (iterHeader 2 ts)
           :: (runMarkets thr ts none true tick2
                (runMarkets thr ts none true
                  (tick3 a b c ya na yc nc) csv).1).2.1
           ++ (match (runMarkets thr ts none true tick2
                 (runMarkets thr ts none true
                   (tick3 a b c ya na yc nc) csv).1).2.2 with
               | none => [Event.sleep interval]
               | some _ => []),
         (runMarkets thr ts none true tick2
           (runMarkets thr ts none true (tick3 a b c ya na yc nc) csv).1).2.2)
    := by
  have hevents : (runMarkets thr ts none true (tick3 a b c ya na yc nc)
      csv).2.1
      = okEvents thr none a ts ya na
          ++ Event.failLog b.name "Failed to fetch prices"
          :: okEvents thr none c ts yc nc := by
    show okEvents thr none a ts ya na
        ++ (Event.failLog b.name "Failed to fetch prices"
            :: (okEvents thr none c ts yc nc ++ [])) = _
    simp
  have hnone : (runMarkets thr ts none true (tick3 a b c ya na yc nc)
      csv).2.2 = none := rfl
  refine ⟨by simp [show (runMarkets thr ts none true (tick3 a b c ya na yc nc)
      csv).1 = (csv ++ [makeRow thr a ts ya na]) ++ [makeRow thr c ts yc nc]
      from rfl], hnone, ?_, ?_, ?_⟩
  · rw [hevents]
    simp [List.countP_append, List.countP_cons, countP_okEvents, isFailEvent]
  · rw [hevents]
    simp
  · exact monitorLoop_two thr ts none true interval
      (tick3 a b c ya na yc nc) tick2 csv 1 hnone

/-- Claim C10: a fetched pair with a missing price appends nothing to the
CSV store or the mirror, emits no alert, logs one per-market failure line,
and the loop continues with the remaining markets on the unchanged store. -/
theorem claim_C10 (thr : Thresholds) (ts : String)
    (g : Option MirrorBehavior) (csvOk : Bool) (m : Market)
    (y n : Option ℚ) (csv : List Row) (rest : List (Market × FetchStep))
    (h : y = none ∨ n = none) :
    processMarket thr ts g csvOk m (FetchStep.ret y n) csv
      = (csv, [Event.failLog m.name "Failed to fetch prices"], none)
    ∧ runMarkets thr ts g csvOk ((m, FetchStep.ret y n) :: rest) csv
      = ((runMarkets thr ts g csvOk rest csv).1,
         Event.failLog m.name "Failed to fetch prices"
           :: (runMarkets thr ts g csvOk rest csv).2.1,
         (runMarkets thr ts g csvOk rest csv).2.2) := by
  have hp := processMarket_missing thr ts g csvOk m y n csv h
  refine ⟨hp, ?_⟩
  simp only [runMarkets, hp]
  rfl

/-- Witness for claim C10: one market returning the pair (none, none)
leaves the empty store empty and logs a single failure entry. -/
theorem claim_C10_witness :
    processMarket thrDefault "t" none true mkt1 (FetchStep.ret none none) []
      = ([], [Event.failLog mkt1.name "Failed to fetch prices"], none)
    ∧ runMarkets thrDefault "t" none true
        [(mkt1, FetchStep.ret none none)] []
      = ((runMarkets thrDefault "t" none true [] []).1,
         Event.failLog mkt1.name "Failed to fetch prices"
           :: (runMarkets thrDefault "t" none true [] []).2.1,
         (runMarkets thrDefault "t" none true [] []).2.2) :=
  claim_C10 thrDefault "t" none true mkt1 none none [] [] (Or.inl rfl)

end PolymarketMonitor
